import Mathlib

/-!
Shallow embedding of `scripts/orb-registration/orb-registration.py`.

The script provisions "orb" hardware units: it derives an 8-character
identity, builds persistent disk images, and registers the unit against a
management API and an inventory (GraphQL) API.  Pure pieces of the script
(string normalization, identity derivation from a public key, response
handling) are embedded as Lean functions; the effectful orchestration
(subprocess calls, HTTP calls, file writes) is embedded as a counter/trace
monad whose environment dictates the outcome of every external call.
Identities and file contents are ASCII in practice, so character-level
Python semantics (lower, islower, split, strip) are modelled on ASCII
character codes.
-/

namespace OrbReg

/-- ASCII uppercase test, code points 65..90 (models Python `str.isupper`
per character for the ASCII range used by orb identities). -/
def isUpperA (c : Char) : Bool := decide (65 ≤ c.toNat ∧ c.toNat ≤ 90)

/-- ASCII lowercase test, code points 97..122. -/
def isLowerA (c : Char) : Bool := decide (97 ≤ c.toNat ∧ c.toNat ≤ 122)

/-- ASCII cased-character test (a letter). -/
def isCasedA (c : Char) : Bool := isUpperA c || isLowerA c

/-- Per-character lowering: maps A..Z to a..z, leaves everything else
unchanged (models Python `str.lower` on ASCII). -/
def pyToLower (c : Char) : Char :=
  if isUpperA c then Char.ofNat (c.toNat + 32) else c

/-- Python `str.lower`, character-wise. -/
def pyLower (s : String) : String := String.mk (s.data.map pyToLower)

/-- Python `str.islower`: at least one cased character, and no cased
character is uppercase (on ASCII: no uppercase letter at all). -/
def pyIsLower (s : String) : Bool :=
  s.data.any isCasedA && s.data.all (fun c => ! isUpperA c)

/-- Python `str.zfill`: left-fill with ASCII zeros up to `width`; a leading
sign character keeps its position and the zeros are inserted after it. -/
def pyZfill (s : String) (width : Nat) : String :=
  if width ≤ s.length then s
  else
    match s.data with
    | [] => String.mk (List.replicate width '0')
    | c :: rest =>
      if c = '+' ∨ c = '-' then
        String.mk (c :: (List.replicate (width - s.length) '0' ++ rest))
      else
        String.mk (List.replicate (width - s.length) '0' ++ (c :: rest))

/-- Python whitespace characters recognized by `str.split()` / `str.strip()`
(ASCII range). -/
def pyIsSpace (c : Char) : Bool :=
  c = ' ' || c = '\t' || c = '\n' || c = '\r' || c = '\x0b' || c = '\x0c'

/-- Python `str.strip()` (whitespace on both ends). -/
def pyStrip (s : String) : String :=
  String.mk (((s.data.dropWhile pyIsSpace).reverse.dropWhile pyIsSpace).reverse)

/-- Helper for `pySplitWs`: walks the characters, accumulating the current
token in reverse. -/
def splitWsAux : List Char → List Char → List String
  | [], [] => []
  | [], cur => [String.mk cur.reverse]
  | c :: cs, cur =>
    if pyIsSpace c then
      match cur with
      | [] => splitWsAux cs []
      | _ :: _ => String.mk cur.reverse :: splitWsAux cs []
    else splitWsAux cs (c :: cur)

/-- Python `str.split()` with no separator: split on runs of whitespace,
discarding empty tokens. -/
def pySplitWs (s : String) : List String := splitWsAux s.data []

/-- The error kinds the script can raise: `ValueError`, a missing JSON key
(`KeyError`), a missing list index (`IndexError`), an
`urllib.error.HTTPError` carrying status code and body, and a failed
subprocess (`CalledProcessError`, named by the tool). -/
inductive Err
  | valueError (msg : String)
  | keyError (key : String)
  | indexError
  | httpError (code : Nat) (body : String)
  | toolFailure (tool : String)
deriving DecidableEq, Repr

instance {ε α : Type} [DecidableEq ε] [DecidableEq α] : DecidableEq (Except ε α) :=
  fun a b =>
    match a, b with
    | .ok x, .ok y =>
      if h : x = y then .isTrue (by rw [h]) else .isFalse (fun c => h (Except.ok.inj c))
    | .error x, .error y =>
      if h : x = y then .isTrue (by rw [h]) else .isFalse (fun c => h (Except.error.inj c))
    | .ok _, .error _ => .isFalse (fun c => Except.noConfusion c)
    | .error _, .ok _ => .isFalse (fun c => Except.noConfusion c)

/-- `OrbRegistration.check_orb_id_format` (orb-registration.py lines
107-123): lowercase the id when it is not already lowercase, left-zero-fill
to 8 characters when shorter, raise `ValueError` when longer than 8. -/
def check_orb_id_format (orb_id : String) : Except Err String :=
  let orb_id := if ! pyIsLower orb_id then pyLower orb_id else orb_id
  if orb_id.length < 8 then .ok (pyZfill orb_id 8)
  else if orb_id.length > 8 then
    .error (.valueError ("Orb ID " ++ orb_id ++ " exceeds 8 characters"))
  else .ok orb_id

/-- Character-list test for "starts with". -/
def listStarts : List Char → List Char → Bool
  | [], _ => true
  | _ :: _, [] => false
  | p :: ps, c :: cs => p = c && listStarts ps cs

/-- `str.startswith`, on the character lists. -/
def strStarts (s pat : String) : Bool := listStarts pat.data s.data

/-- `OrbRegistration.detect_platform` (lines 141-148). -/
def detect_platform (hardware_version : String) : Except Err String :=
  if strStarts hardware_version "PEARL_" then .ok "pearl"
  else if strStarts hardware_version "DIAMOND_" then .ok "diamond"
  else .error (.valueError ("Unknown hardware version format: " ++ hardware_version))

/-! ### SHA-256 (used by `generate_orb_id` via `hashlib.sha256`)

32-bit words are modelled as `Nat` reduced modulo `2 ^ 32` wherever an
operation can overflow. -/

/-- Reduce to a 32-bit word. -/
def w32 (n : Nat) : Nat := n % 4294967296

/-- 32-bit modular addition. -/
def addw (a b : Nat) : Nat := (a + b) % 4294967296

/-- 32-bit right rotation (inputs are kept below `2 ^ 32`). -/
def rotr (n x : Nat) : Nat :=
  w32 (Nat.lor (Nat.shiftRight x n) (Nat.shiftLeft x (32 - n)))

/-- Logical right shift. -/
def shr (n x : Nat) : Nat := Nat.shiftRight x n

/-- 32-bit complement. -/
def notw (a : Nat) : Nat := Nat.xor a 4294967295

/-- SHA-256 big sigma 0. -/
def bsig0 (x : Nat) : Nat := Nat.xor (rotr 2 x) (Nat.xor (rotr 13 x) (rotr 22 x))

/-- SHA-256 big sigma 1. -/
def bsig1 (x : Nat) : Nat := Nat.xor (rotr 6 x) (Nat.xor (rotr 11 x) (rotr 25 x))

/-- SHA-256 small sigma 0. -/
def ssig0 (x : Nat) : Nat := Nat.xor (rotr 7 x) (Nat.xor (rotr 18 x) (shr 3 x))

/-- SHA-256 small sigma 1. -/
def ssig1 (x : Nat) : Nat := Nat.xor (rotr 17 x) (Nat.xor (rotr 19 x) (shr 10 x))

/-- SHA-256 choice function. -/
def chf (x y z : Nat) : Nat := Nat.xor (Nat.land x y) (Nat.land (notw x) z)

/-- SHA-256 majority function. -/
def majf (x y z : Nat) : Nat :=
  Nat.xor (Nat.land x y) (Nat.xor (Nat.land x z) (Nat.land y z))

/-- SHA-256 round constants. -/
def sha256K : List Nat := [
  1116352408, 1899447441, 3049323471, 3921009573, 961987163, 1508970993, 2453635748, 2870763221,
  3624381080, 310598401, 607225278, 1426881987, 1925078388, 2162078206, 2614888103, 3248222580,
  3835390401, 4022224774, 264347078, 604807628, 770255983, 1249150122, 1555081692, 1996064986,
  2554220882, 2821834349, 2952996808, 3210313671, 3336571891, 3584528711, 113926993, 338241895,
  666307205, 773529912, 1294757372, 1396182291, 1695183700, 1986661051, 2177026350, 2456956037,
  2730485921, 2820302411, 3259730800, 3345764771, 3516065817, 3600352804, 4094571909, 275423344,
  430227734, 506948616, 659060556, 883997877, 958139571, 1322822218, 1537002063, 1747873779,
  1955562222, 2024104815, 2227730452, 2361852424, 2428436474, 2756734187, 3204031479, 3329325298]

/-- Working state of one SHA-256 compression (eight 32-bit words). -/
structure Hash8 where
  a : Nat
  b : Nat
  c : Nat
  d : Nat
  e : Nat
  f : Nat
  g : Nat
  h : Nat
deriving DecidableEq, Repr

/-- SHA-256 initial hash value. -/
def sha256H0 : Hash8 :=
  ⟨1779033703, 3144134277, 1013904242, 2773480762, 1359893119, 2600822924, 528734635, 1541459225⟩

/-- Big-endian byte decomposition of `n` into `k` bytes. -/
def beBytes (k n : Nat) : List Nat :=
  (List.range k).map fun i => n / 2 ^ (8 * (k - 1 - i)) % 256

/-- UTF-8 encoding of one character (models Python `str.encode()`). -/
def utf8Char (c : Char) : List Nat :=
  let n := c.toNat
  if n < 128 then [n]
  else if n < 2048 then [192 + n / 64, 128 + n % 64]
  else if n < 65536 then [224 + n / 4096, 128 + n / 64 % 64, 128 + n % 64]
  else [240 + n / 262144, 128 + n / 4096 % 64, 128 + n / 64 % 64, 128 + n % 64]

/-- UTF-8 encoding of a string as a byte list. -/
def utf8Bytes (s : String) : List Nat := (s.data.map utf8Char).flatten

/-- SHA-256 message padding: append `0x80`, zeros to 56 mod 64, then the
bit length as 8 big-endian bytes. -/
def sha256Pad (msg : List Nat) : List Nat :=
  msg ++ [128] ++ List.replicate ((119 - msg.length % 64) % 64) 0 ++ beBytes 8 (8 * msg.length)

/-- Split a padded message into 64-byte blocks. -/
def toBlocks (bytes : List Nat) : List (List Nat) :=
  (List.range (bytes.length / 64)).map fun i => (bytes.drop (64 * i)).take 64

/-- The sixteen 32-bit big-endian words of one block. -/
def wordsOf (block : List Nat) : List Nat :=
  (List.range 16).map fun i =>
    block.getD (4 * i) 0 * 16777216 + block.getD (4 * i + 1) 0 * 65536 +
      block.getD (4 * i + 2) 0 * 256 + block.getD (4 * i + 3) 0

/-- Message-schedule extension: append `k` more words per the SHA-256
recurrence. -/
def extendW : Nat → List Nat → List Nat
  | 0, ws => ws
  | k + 1, ws =>
    let t := ws.length
    let wn := addw (addw (ssig1 (ws.getD (t - 2) 0)) (ws.getD (t - 7) 0))
      (addw (ssig0 (ws.getD (t - 15) 0)) (ws.getD (t - 16) 0))
    extendW k (ws ++ [wn])

/-- One SHA-256 round: `p` is the pair (round constant, schedule word). -/
def roundFn (st : Hash8) (p : Nat × Nat) : Hash8 :=
  let t1 := addw st.h (addw (bsig1 st.e) (addw (chf st.e st.f st.g) (addw p.1 p.2)))
  let t2 := addw (bsig0 st.a) (majf st.a st.b st.c)
  ⟨addw t1 t2, st.a, st.b, st.c, addw st.d t1, st.e, st.f, st.g⟩

/-- Word-wise modular addition of two hash states. -/
def add8 (x y : Hash8) : Hash8 :=
  ⟨addw x.a y.a, addw x.b y.b, addw x.c y.c, addw x.d y.d,
   addw x.e y.e, addw x.f y.f, addw x.g y.g, addw x.h y.h⟩

/-- Compress one 64-byte block into the running hash state. -/
def compress (st : Hash8) (block : List Nat) : Hash8 :=
  let ws := extendW 48 (wordsOf block)
  add8 st ((sha256K.zip ws).foldl roundFn st)

/-- SHA-256 of a byte list, as the final hash state. -/
def sha256State (msg : List Nat) : Hash8 :=
  (toBlocks (sha256Pad msg)).foldl compress sha256H0

/-- The 32 digest bytes, big-endian per word. -/
def digestBytes (st : Hash8) : List Nat :=
  beBytes 4 st.a ++ beBytes 4 st.b ++ beBytes 4 st.c ++ beBytes 4 st.d ++
    beBytes 4 st.e ++ beBytes 4 st.f ++ beBytes 4 st.g ++ beBytes 4 st.h

/-- Hex digit character of `n % 16`, lowercase (digits at code point 48,
letters a-f at 87 + value). -/
def hexDigit (n : Nat) : Char :=
  if n % 16 < 10 then Char.ofNat (48 + n % 16) else Char.ofNat (87 + n % 16)

/-- Lowercase hex rendering of a byte list, two digits per byte (models
Python `hexdigest()`). -/
def hexOfBytes (bs : List Nat) : List Char :=
  (bs.map fun b => [hexDigit (b / 16), hexDigit b]).flatten

/-- `hashlib.sha256(...).hexdigest()` on the UTF-8 bytes of a string. -/
def sha256Hexdigest (s : String) : List Char := hexOfBytes (digestBytes (sha256State (utf8Bytes s)))

/-- The pure tail of `OrbRegistration.generate_orb_id` (lines 170-176):
given the content of the generated `uid.pub` file, take the second
whitespace-separated token (`read().strip().split()[1]`, raising
`IndexError` when there are fewer than two tokens), and return the first 8
characters of the SHA-256 hexdigest of its UTF-8 encoding. -/
def derive_orb_id (content : String) : Except Err String :=
  match pySplitWs (pyStrip content) with
  | _ :: tok :: _ => .ok (String.mk ((sha256Hexdigest tok).take 8))
  | _ => .error .indexError

/-! ### Backend HTTP responses

`urllib.request.urlopen` either returns a 2xx response (whose JSON body we
model by the fields the script reads) or raises `HTTPError` with a status
code and an error body.  Each endpoint gets a response type carrying
exactly what the script inspects. -/

/-- Response to `POST /api/v1/orbs/{id}` (create).  On success the script
reads `result["name"]` (`KeyError` when absent). -/
inductive CreateResp
  | success (name : Option String)
  | httpErr (code : Nat) (body : String)
deriving DecidableEq, Repr

/-- Response to `GET /api/v1/orbs/{id}/details`.  On success the script
reads `result.get("Name")` and treats a missing or empty name as an error. -/
inductive LookupResp
  | success (name : Option String)
  | httpErr (code : Nat) (body : String)
deriving DecidableEq, Repr

/-- Response to `POST /api/v1/orbs/{id}/channel` (body ignored on success). -/
inductive ChannelResp
  | success
  | httpErr (code : Nat) (body : String)
deriving DecidableEq, Repr

/-- Response to `POST /api/v1/tokens?orbId={id}`.  On success the script
reads `result["token"]` (`KeyError` when absent). -/
inductive TokenResp
  | success (token : Option String)
  | httpErr (code : Nat) (body : String)
deriving DecidableEq, Repr

/-- Response of the Core-App GraphQL endpoint.  On success the script reads
`result.get("data", {}).get("insert_orb", {}).get("affected_rows")`, which
is `None` when any level is missing. -/
inductive CoreResp
  | success (affected_rows : Option Nat)
  | httpErr (code : Nat) (body : String)
deriving DecidableEq, Repr

/-- `OrbRegistration.fetch_existing_orb_name` (lines 301-321): on a 2xx
response return the `Name` field, raising `ValueError` when it is missing
or empty (`if not name`); re-raise any `HTTPError`. -/
def fetch_existing_orb_name (orb_id : String) (resp : LookupResp) : Except Err String :=
  match resp with
  | .success none =>
    .error (.valueError ("No name found for orb " ++ orb_id ++ " in response."))
  | .success (some name) =>
    if name = "" then
      .error (.valueError ("No name found for orb " ++ orb_id ++ " in response."))
    else .ok name
  | .httpErr code body => .error (.httpError code body)

/-- `OrbRegistration.register_orb_mongo` (lines 323-367): on a 2xx response
return `result["name"]`; on HTTP 409 fall back to
`fetch_existing_orb_name`; on any other `HTTPError` log and re-raise it
(status and body propagate). -/
def register_orb_mongo (orb_id : String) (create : CreateResp) (lookup : LookupResp) :
    Except Err String :=
  match create with
  | .success (some name) => .ok name
  | .success none => .error (.keyError "name")
  | .httpErr code body =>
    if code = 409 then fetch_existing_orb_name orb_id lookup
    else .error (.httpError code body)

/-- `OrbRegistration.set_orb_channel` (lines 445-482): success when no
exception, re-raise any `HTTPError`. -/
def set_orb_channel (resp : ChannelResp) : Except Err Unit :=
  match resp with
  | .success => .ok ()
  | .httpErr code body => .error (.httpError code body)

/-- `OrbRegistration.get_orb_token` (lines 484-518): on a 2xx response
return `result["token"]`; re-raise any `HTTPError`. -/
def get_orb_token (resp : TokenResp) : Except Err String :=
  match resp with
  | .success (some token) => .ok token
  | .success none => .error (.keyError "token")
  | .httpErr code body => .error (.httpError code body)

/-- `OrbRegistration.register_orb_core_app` (lines 369-443): on a 2xx
response, raise `ValueError` unless the payload reports
`affected_rows == 1`; re-raise any `HTTPError`. -/
def register_orb_core_app (resp : CoreResp) : Except Err Unit :=
  match resp with
  | .success affected =>
    if affected = some 1 then .ok ()
    else .error (.valueError "Failed to register Orb in Core-App")
  | .httpErr code body => .error (.httpError code body)

/-! ### Effect model

External effects (subprocess invocations, file writes, HTTP calls) are
recorded as a trace of events.  An `Env` fixes the outcome of every
external call: subprocess and file operations succeed or fail according to
`toolOk` applied to a running call counter, HTTP endpoints answer
according to per-identity response functions, and `pubkey` is the content
`ssh-keygen` leaves in `uid.pub`. -/

/-- One observable external effect. -/
inductive Event
  | keygen
  | mongoCreate (orbId : String)
  | mongoLookup (orbId : String)
  | channelSet (orbId : String)
  | tokenIssue (orbId : String)
  | coreRegister (orbId : String) (name : String)
  | fsWrite (path : String)
  | mountEv (img : String)
  | umountEv
  | installEv (dst : String)
  | syncEv
deriving DecidableEq, Repr

/-- Environment fixing every external outcome of one run. -/
structure Env where
  toolOk : Nat → Bool
  pubkey : String
  createResp : String → CreateResp
  lookupResp : String → LookupResp
  channelResp : String → ChannelResp
  tokenResp : String → TokenResp
  coreResp : String → CoreResp

/-- Result of running an effectful computation: outcome, next call
counter, and the trace of events it emitted. -/
structure MStep (α : Type) where
  res : Except Err α
  ctr : Nat
  trace : List Event

/-- Effectful computations: from a call counter to an outcome, the next
counter, and the emitted trace. -/
def M (α : Type) : Type := Nat → MStep α

/-- Return without effects. -/
def M.pure {α : Type} (a : α) : M α := fun n => ⟨.ok a, n, []⟩

/-- Sequencing; an exception short-circuits, traces concatenate. -/
def M.bind {α β : Type} (x : M α) (f : α → M β) : M β := fun n =>
  let r := x n
  match r.res with
  | .error e => ⟨.error e, r.ctr, r.trace⟩
  | .ok a =>
    let r2 := f a r.ctr
    ⟨r2.res, r2.ctr, r.trace ++ r2.trace⟩

/-- Python `try/finally`: the cleanup always runs; an exception raised by
the cleanup replaces the body's outcome. -/
def M.tryFinally {α β : Type} (body : M α) (cleanup : M β) : M α := fun n =>
  let rb := body n
  let rf := cleanup rb.ctr
  match rf.res with
  | .error e => ⟨.error e, rf.ctr, rb.trace ++ rf.trace⟩
  | .ok _ => ⟨rb.res, rf.ctr, rb.trace ++ rf.trace⟩

/-- Lift a pure fallible computation (raising inside the interpreter). -/
def M.liftE {α : Type} (x : Except Err α) : M α := fun n => ⟨x, n, []⟩

/-- A fallible external operation (`subprocess.run(..., check=True)`, or a
file operation): consumes one counter tick; on success it emits `ev`, on
failure it raises naming the tool. -/
def toolOp (env : Env) (tool : String) (ev : List Event) : M Unit := fun n =>
  if env.toolOk n then ⟨.ok (), n + 1, ev⟩
  else ⟨.error (.toolFailure tool), n + 1, []⟩

/-- `mount -o loop img mnt` (`check=True`): emits the mount event on
success only. -/
def mountOp (env : Env) (img : String) : M Unit := toolOp env "mount" [.mountEv img]

/-- `umount mnt` (`check=True`): the invocation always happens, so the
event is emitted whether or not the tool exits nonzero. -/
def umountOp (env : Env) : M Unit := fun n =>
  if env.toolOk n then ⟨.ok (), n + 1, [.umountEv]⟩
  else ⟨.error (.toolFailure "umount"), n + 1, [.umountEv]⟩

/-- The `mount ...; try: body finally: umount` shape shared by
`create_persistent_images` and `save_orb_artifacts`. -/
def withMount {α : Type} (env : Env) (img : String) (body : M α) : M α :=
  M.bind (mountOp env img) fun _ => M.tryFinally body (umountOp env)

/-- `OrbRegistration.generate_orb_id` (lines 150-176): run `ssh-keygen`
(fresh keypair, keys written to the build directory), then derive the id
from the `uid.pub` content. -/
def generate_orb_id (env : Env) : M String :=
  M.bind (toolOp env "ssh-keygen" [.keygen]) fun _ => M.liftE (derive_orb_id env.pubkey)

/-- The lookup call of `register_orb_mongo` happens exactly on the 409
fallback. -/
def mongoLookupEvents (orb_id : String) : CreateResp → List Event
  | .httpErr code _ => if code = 409 then [.mongoLookup orb_id] else []
  | .success _ => []

/-- Traced `register_orb_mongo`: the create call always happens; the
lookup call happens exactly on the 409 fallback. -/
def register_orb_mongoM (env : Env) (orb_id : String) : M String := fun n =>
  ⟨register_orb_mongo orb_id (env.createResp orb_id) (env.lookupResp orb_id), n,
    .mongoCreate orb_id :: mongoLookupEvents orb_id (env.createResp orb_id)⟩

/-- Traced `set_orb_channel`. -/
def set_orb_channelM (env : Env) (orb_id : String) : M Unit := fun n =>
  ⟨set_orb_channel (env.channelResp orb_id), n, [.channelSet orb_id]⟩

/-- Traced `get_orb_token`. -/
def get_orb_tokenM (env : Env) (orb_id : String) : M String := fun n =>
  ⟨get_orb_token (env.tokenResp orb_id), n, [.tokenIssue orb_id]⟩

/-- Traced `register_orb_core_app`. -/
def register_orb_core_appM (env : Env) (orb_id orb_name : String) : M Unit := fun n =>
  ⟨register_orb_core_app (env.coreResp orb_id), n, [.coreRegister orb_id orb_name]⟩

/-- Installing the three baseline JSON files plus default ACL and sync
under a scoped mount — the loop body of `create_persistent_images`
(lines 241-299). -/
def installBaseline (env : Env) (img : String) : M Unit :=
  withMount env img
    (M.bind (toolOp env "install" [.installEv "mnt/components.json"]) fun _ =>
     M.bind (toolOp env "install" [.installEv "mnt/calibration.json"]) fun _ =>
     M.bind (toolOp env "install" [.installEv "mnt/versions.json"]) fun _ =>
     M.bind (toolOp env "setfacl" []) fun _ =>
     toolOp env "sync" [.syncEv])

/-- `OrbRegistration.create_persistent_images` (lines 178-299): allocate
the two zero-filled images, format both (`mke2fs`), enable ACL
(`tune2fs`), then mount each in turn and install the baseline files. -/
def create_persistent_images (env : Env) : M Unit :=
  M.bind (toolOp env "write" [.fsWrite "build/persistent.img"]) fun _ =>
  M.bind (toolOp env "write" [.fsWrite "build/persistent-journaled.img"]) fun _ =>
  M.bind (toolOp env "mke2fs" []) fun _ =>
  M.bind (toolOp env "mke2fs" []) fun _ =>
  M.bind (toolOp env "tune2fs" []) fun _ =>
  M.bind (toolOp env "tune2fs" []) fun _ =>
  M.bind (installBaseline env "build/persistent.img") fun _ =>
  installBaseline env "build/persistent-journaled.img"

/-- Installing `orb-name` and `token` inside one per-unit image copy under
a scoped mount — the loop body of `save_orb_artifacts` (lines 550-589). -/
def personalizeImage (env : Env) (dir img : String) : M Unit :=
  withMount env (dir ++ img)
    (M.bind (toolOp env "install" [.installEv "mnt/orb-name"]) fun _ =>
     M.bind (toolOp env "install" [.installEv "mnt/token"]) fun _ =>
     toolOp env "sync" [.syncEv])

/-- `OrbRegistration.save_orb_artifacts` (lines 520-589): create the
per-identity artifact directory, move the SSH keys into it, write
`orb-name` and `token`, copy both base images, then mount each copy and
install the unit files. -/
def save_orb_artifacts (env : Env) (orb_id orb_name token : String) : M Unit :=
  let dir := "artifacts/" ++ orb_id ++ "/"
  M.bind (toolOp env "mkdir" []) fun _ =>
  M.bind (toolOp env "move" [.fsWrite (dir ++ "uid")]) fun _ =>
  M.bind (toolOp env "move" [.fsWrite (dir ++ "uid.pub")]) fun _ =>
  M.bind (toolOp env "write" [.fsWrite (dir ++ "orb-name")]) fun _ =>
  M.bind (toolOp env "write" [.fsWrite (dir ++ "token")]) fun _ =>
  M.bind (toolOp env "copy" [.fsWrite (dir ++ "persistent.img")]) fun _ =>
  M.bind (toolOp env "copy" [.fsWrite (dir ++ "persistent-journaled.img")]) fun _ =>
  M.bind (personalizeImage env dir "persistent.img") fun _ =>
  personalizeImage env dir "persistent-journaled.img"

/-- The steps of `process_pearl_orb` (lines 591-603) before any artifact is
persisted: generate the id, detect the platform, create-or-fetch the
management record, set the channel, and issue the token. -/
def pearl_prelude (env : Env) (hardware_version : String) : M (String × String × String) :=
  M.bind (generate_orb_id env) fun orb_id =>
  M.bind (M.liftE (detect_platform hardware_version)) fun _ =>
  M.bind (register_orb_mongoM env orb_id) fun orb_name =>
  M.bind (set_orb_channelM env orb_id) fun _ =>
  M.bind (get_orb_tokenM env orb_id) fun token =>
  M.pure (orb_id, orb_name, token)

/-- `OrbRegistration.process_pearl_orb` (lines 591-603): the pre-artifact
steps, then `save_orb_artifacts`, then `register_orb_core_app`. -/
def process_pearl_orb (env : Env) (hardware_version : String) : M String :=
  M.bind (pearl_prelude env hardware_version) fun x =>
  M.bind (save_orb_artifacts env x.1 x.2.1 x.2.2) fun _ =>
  M.bind (register_orb_core_appM env x.1 x.2.1) fun _ =>
  M.pure x.1

/-- One iteration of the `process_diamond_orb_ids` loop (lines 609-614):
normalize the id, create-or-fetch the management record, register with
Core-App. -/
def process_one_diamond_id (env : Env) (orb_id : String) : M Unit :=
  M.bind (M.liftE (check_orb_id_format orb_id)) fun oid =>
  M.bind (register_orb_mongoM env oid) fun orb_name =>
  register_orb_core_appM env oid orb_name

/-- The loop of `process_diamond_orb_ids`: ids in order, an exception
aborts the rest. -/
def diamond_ids_loop (env : Env) : List String → M Unit
  | [] => M.pure ()
  | orb_id :: rest =>
    M.bind (process_one_diamond_id env orb_id) fun _ => diamond_ids_loop env rest

/-- `OrbRegistration.process_diamond_orb_ids` (lines 605-614): detect the
platform once, then process each supplied id in order. -/
def process_diamond_orb_ids (env : Env) (hardware_version : String) (ids : List String) :
    M Unit :=
  M.bind (M.liftE (detect_platform hardware_version)) fun _ => diamond_ids_loop env ids

/-- `OrbRegistration.process_diamond_orb_pairs` (lines 616-624): per pair,
normalize the id and register directly with Core-App under the supplied
name; no management-API call is made. -/
def process_diamond_orb_pairs (env : Env) : List (String × String) → M Unit
  | [] => M.pure ()
  | (orb_id, orb_name) :: rest =>
    M.bind (M.liftE (check_orb_id_format orb_id)) fun oid =>
    M.bind (register_orb_core_appM env oid orb_name) fun _ =>
    process_diamond_orb_pairs env rest

/-! ### Trace observations -/

/-- The trace a computation emits from counter `n`. -/
def traceOf {α : Type} (m : M α) (n : Nat) : List Event := (m n).trace

/-- Successful mount events in a trace. -/
def mountCount (t : List Event) : Nat :=
  t.countP fun e => match e with | .mountEv _ => true | _ => false

/-- Unmount invocations in a trace. -/
def umountCount (t : List Event) : Nat :=
  t.countP fun e => match e with | .umountEv => true | _ => false

/-- Management-API events (create, lookup, channel assignment, token
issuance) in a trace. -/
def mgmtCalls (t : List Event) : List Event :=
  t.filter fun e =>
    match e with
    | .mongoCreate _ => true
    | .mongoLookup _ => true
    | .channelSet _ => true
    | .tokenIssue _ => true
    | _ => false

/-- Inventory (Core-App) registrations in a trace, as (identity, name). -/
def coreCalls (t : List Event) : List (String × String) :=
  t.filterMap fun e => match e with | .coreRegister i nm => some (i, nm) | _ => none

/-- Paths of successful file writes in a trace. -/
def fsWrites (t : List Event) : List String :=
  t.filterMap fun e => match e with | .fsWrite p => some p | _ => none

/-- File writes landing under the per-identity artifact store. -/
def artifactWrites (t : List Event) : List String :=
  (fsWrites t).filter fun p => strStarts p "artifacts/"

/-- Lowercase hexadecimal digit test (0-9, a-f). -/
def isLowerHexChar (c : Char) : Bool :=
  (48 ≤ c.toNat && c.toNat ≤ 57) || (97 ≤ c.toNat && c.toNat ≤ 102)

/-! ### Helper lemmas: characters and strings -/

theorem pyToLower_of_not_upper {c : Char} (h : isUpperA c = false) : pyToLower c = c := by
  simp [pyToLower, h]

theorem isUpperA_bounds {c : Char} (h : isUpperA c = true) :
    65 ≤ c.toNat ∧ c.toNat ≤ 90 := by
  simpa [isUpperA] using h

theorem upperA_shift_not_upper : ∀ m, m < 91 → 65 ≤ m →
    isUpperA (Char.ofNat (m + 32)) = false := by decide

theorem pyToLower_not_upper (c : Char) : isUpperA (pyToLower c) = false := by
  by_cases h : isUpperA c = true
  · obtain ⟨h1, h2⟩ := isUpperA_bounds h
    simpa [pyToLower, h] using
      upperA_shift_not_upper c.toNat (Nat.lt_succ_of_le h2) h1
  · simp only [Bool.not_eq_true] at h
    rw [pyToLower_of_not_upper h]
    exact h

theorem map_id_of_fix {α : Type} {f : α → α} :
    ∀ l : List α, (∀ c ∈ l, f c = c) → l.map f = l
  | [], _ => rfl
  | x :: xs, h => by
    rw [List.map_cons, h x (List.mem_cons_self x xs),
      map_id_of_fix xs fun c hc => h c (List.mem_cons_of_mem _ hc)]

theorem string_length_data (s : String) : s.length = s.data.length := rfl

theorem pyLower_eq_of_noUpper {s : String}
    (h : ∀ c ∈ s.data, isUpperA c = false) : pyLower s = s := by
  have hm : s.data.map pyToLower = s.data :=
    map_id_of_fix _ fun c hc => pyToLower_of_not_upper (h c hc)
  cases s with
  | mk data => exact congrArg String.mk hm

theorem pyLower_data (s : String) : (pyLower s).data = s.data.map pyToLower := rfl

theorem pyLower_length (s : String) : (pyLower s).length = s.length := by
  rw [string_length_data, string_length_data, pyLower_data, List.length_map]

theorem pyLower_noUpper (s : String) :
    ∀ c ∈ (pyLower s).data, isUpperA c = false := by
  intro c hc
  rw [pyLower_data] at hc
  obtain ⟨d, _, rfl⟩ := List.mem_map.mp hc
  exact pyToLower_not_upper d

theorem pyIsLower_noUpper {s : String} (h : pyIsLower s = true) :
    ∀ c ∈ s.data, isUpperA c = false := by
  intro c hc
  have := (Bool.and_eq_true _ _).mp h |>.2
  simpa using List.all_eq_true.mp this c hc

/-- `check_orb_id_format` always behaves as: lowercase, then zero-fill when
the lowered length is at most 8, error otherwise. -/
theorem check_orb_id_format_eq (s : String) :
    check_orb_id_format s =
      if 8 < (pyLower s).length then
        .error (.valueError ("Orb ID " ++ pyLower s ++ " exceeds 8 characters"))
      else .ok (pyZfill (pyLower s) 8) := by
  unfold check_orb_id_format
  by_cases hil : pyIsLower s
  · have hls : pyLower s = s := pyLower_eq_of_noUpper (pyIsLower_noUpper hil)
    simp only [hil, Bool.not_true, Bool.false_eq_true, if_false, hls]
    rcases Nat.lt_trichotomy s.length 8 with h | h | h
    · simp [h, Nat.lt_asymm h, Nat.not_lt.mpr (Nat.le_of_lt h)]
    · have h8 : ¬ s.length < 8 := by omega
      have h8' : ¬ s.length > 8 := by omega
      have h8'' : ¬ 8 < s.length := by omega
      simp [h8, h8', h8'', pyZfill, Nat.le_of_eq h.symm]
    · have h8 : ¬ s.length < 8 := by omega
      simp [h8, h]
  · have hil' : pyIsLower s = false := by simpa using hil
    simp only [hil', Bool.not_false, if_true]
    rcases Nat.lt_trichotomy (pyLower s).length 8 with h | h | h
    · simp [h, Nat.lt_asymm h]
    · have h8 : ¬ (pyLower s).length < 8 := by omega
      have h8' : ¬ (pyLower s).length > 8 := by omega
      have h8'' : ¬ 8 < (pyLower s).length := by omega
      simp [h8, h8', h8'', pyZfill, Nat.le_of_eq h.symm]
    · have h8 : ¬ (pyLower s).length < 8 := by omega
      simp [h8, h]

theorem pyZfill_of_le {s : String} {w : Nat} (h : w ≤ s.length) : pyZfill s w = s := by
  simp [pyZfill, h]

theorem pyZfill_length (s : String) (w : Nat) :
    (pyZfill s w).length = max w s.length := by
  unfold pyZfill
  by_cases h : w ≤ s.length
  · simp only [h, if_true]
    exact (Nat.max_eq_right h).symm
  · have hwle : s.length ≤ w := Nat.le_of_not_le h
    rw [Nat.max_eq_left hwle]
    simp only [h, if_false]
    have hsd := string_length_data s
    cases hs : s.data with
    | nil =>
      show (List.replicate w '0').length = w
      rw [List.length_replicate]
    | cons c rest =>
      rw [hs, List.length_cons] at hsd
      by_cases hc : c = '+' ∨ c = '-'
      · simp only [hc, if_true]
        show (c :: (List.replicate (w - s.length) '0' ++ rest)).length = w
        rw [List.length_cons, List.length_append, List.length_replicate]
        omega
      · simp only [hc, if_false]
        show (List.replicate (w - s.length) '0' ++ c :: rest).length = w
        rw [List.length_append, List.length_replicate, List.length_cons]
        omega

theorem pyZfill_chars {s : String} {w : Nat} :
    ∀ c ∈ (pyZfill s w).data, c = '0' ∨ c ∈ s.data := by
  intro c hc
  unfold pyZfill at hc
  by_cases h : w ≤ s.length
  · simp only [h, if_true] at hc
    exact Or.inr hc
  · simp only [h, if_false] at hc
    cases hs : s.data with
    | nil =>
      rw [hs] at hc
      exact Or.inl (List.eq_of_mem_replicate hc)
    | cons d rest =>
      rw [hs] at hc
      by_cases hd : d = '+' ∨ d = '-'
      · simp only [hd, if_true] at hc
        have hc' : c ∈ d :: (List.replicate (w - s.length) '0' ++ rest) := hc
        rcases List.mem_cons.mp hc' with h1 | h1
        · right; rw [h1]; exact List.mem_cons_self _ _
        · rcases List.mem_append.mp h1 with h2 | h2
          · exact Or.inl (List.eq_of_mem_replicate h2)
          · right; exact List.mem_cons_of_mem _ h2
      · simp only [hd, if_false] at hc
        have hc' : c ∈ List.replicate (w - s.length) '0' ++ d :: rest := hc
        rcases List.mem_append.mp hc' with h1 | h1
        · exact Or.inl (List.eq_of_mem_replicate h1)
        · right; exact h1

/-- Every accepted identity has length exactly 8 and no uppercase letter. -/
theorem check_ok_shape {s r : String} (h : check_orb_id_format s = .ok r) :
    r = pyZfill (pyLower s) 8 ∧ (pyLower s).length ≤ 8 ∧ r.length = 8 ∧
      ∀ c ∈ r.data, isUpperA c = false := by
  rw [check_orb_id_format_eq] at h
  by_cases hl : 8 < (pyLower s).length
  · simp [hl] at h
  · simp only [hl, if_false, Except.ok.injEq] at h
    subst h
    refine ⟨rfl, Nat.not_lt.mp hl, ?_, ?_⟩
    · rw [pyZfill_length]
      exact Nat.max_eq_left (Nat.not_lt.mp hl)
    · intro c hc
      rcases pyZfill_chars c hc with h0 | hmem
      · subst h0; decide
      · exact pyLower_noUpper s c hmem

/-! ### Helper lemmas: hexadecimal rendering of digests -/

theorem hexDigit_lowerHex (n : Nat) : isLowerHexChar (hexDigit n) = true := by
  have hb : ∀ m, m < 16 →
      isLowerHexChar (if m < 10 then Char.ofNat (48 + m) else Char.ofNat (87 + m)) = true := by
    decide
  have h : n % 16 < 16 := Nat.mod_lt n (by omega)
  have h2 := hb (n % 16) h
  unfold hexDigit
  rw [show (48 + n % 16) = 48 + n % 16 from rfl]
  exact h2

theorem hexOfBytes_lowerHex : ∀ bs : List Nat, ∀ c ∈ hexOfBytes bs,
    isLowerHexChar c = true := by
  intro bs
  induction bs with
  | nil => intro c hc; simp [hexOfBytes] at hc
  | cons b rest ih =>
    intro c hc
    simp only [hexOfBytes, List.map_cons, List.flatten_cons] at hc
    rcases List.mem_append.mp hc with h1 | h1
    · rcases List.mem_cons.mp h1 with h2 | h2
      · rw [h2]; exact hexDigit_lowerHex _
      · rcases List.mem_cons.mp h2 with h3 | h3
        · rw [h3]; exact hexDigit_lowerHex _
        · simp at h3
    · exact ih c h1

theorem hexOfBytes_length : ∀ bs : List Nat, (hexOfBytes bs).length = 2 * bs.length := by
  intro bs
  induction bs with
  | nil => rfl
  | cons b rest ih =>
    show ([hexDigit (b / 16), hexDigit b] ++ hexOfBytes rest).length = 2 * (b :: rest).length
    rw [List.length_append, ih]
    simp only [List.length_cons, List.length_nil]
    omega

theorem beBytes_length (k n : Nat) : (beBytes k n).length = k := by
  rw [beBytes, List.length_map, List.length_range]

theorem digestBytes_length (st : Hash8) : (digestBytes st).length = 32 := by
  simp [digestBytes, List.length_append, beBytes_length]

theorem sha256Hexdigest_length (s : String) : (sha256Hexdigest s).length = 64 := by
  rw [sha256Hexdigest, hexOfBytes_length, digestBytes_length]

/-- The identity derived from a public-key file is 8 lowercase hex
characters. -/
theorem derive_ok_shape {content r : String} (h : derive_orb_id content = .ok r) :
    r.length = 8 ∧ ∀ c ∈ r.data, isLowerHexChar c = true := by
  unfold derive_orb_id at h
  cases htok : pySplitWs (pyStrip content) with
  | nil => rw [htok] at h; cases h
  | cons t0 rest =>
    cases rest with
    | nil => rw [htok] at h; cases h
    | cons tok rest2 =>
      rw [htok] at h
      have hr : r = String.mk ((sha256Hexdigest tok).take 8) := by
        cases h; rfl
      subst hr
      constructor
      · rw [string_length_data]
        show ((sha256Hexdigest tok).take 8).length = 8
        rw [List.length_take, sha256Hexdigest_length]
        omega
      · intro c hc
        have hc' : c ∈ (sha256Hexdigest tok).take 8 := hc
        exact hexOfBytes_lowerHex _ c (List.take_subset 8 _ hc')

/-! ### Helper lemmas: traces of the effect monad -/

theorem mountCount_append (a b : List Event) :
    mountCount (a ++ b) = mountCount a + mountCount b := List.countP_append _ _ _

theorem umountCount_append (a b : List Event) :
    umountCount (a ++ b) = umountCount a + umountCount b := List.countP_append _ _ _

/-- A computation whose every trace has as many unmount invocations as
successful mounts. -/
def Balanced {α : Type} (m : M α) : Prop :=
  ∀ n, mountCount ((m n).trace) = umountCount ((m n).trace)

theorem balanced_pure {α : Type} (a : α) : Balanced (M.pure a) := fun _ => rfl

theorem balanced_liftE {α : Type} (x : Except Err α) : Balanced (M.liftE x) := fun _ => rfl

theorem balanced_bind {α β : Type} {x : M α} {f : α → M β}
    (hx : Balanced x) (hf : ∀ a, Balanced (f a)) : Balanced (M.bind x f) := by
  intro n
  unfold M.bind
  cases hres : (x n).res with
  | error e =>
    simp only [hres]
    exact hx n
  | ok a =>
    simp only [hres]
    rw [mountCount_append, umountCount_append, hx n, hf a (x n).ctr]

theorem balanced_toolOp {env : Env} {tool : String} {ev : List Event}
    (h : mountCount ev = umountCount ev) : Balanced (toolOp env tool ev) := by
  intro n
  unfold toolOp
  cases henv : env.toolOk n <;> simp only [henv, if_true, if_false, Bool.false_eq_true]
  · rfl
  · exact h

theorem balanced_withMount {α : Type} (env : Env) (img : String) {body : M α}
    (hb : Balanced body) : Balanced (withMount env img body) := by
  intro n
  have hm1 : mountCount [Event.mountEv img] = 1 := rfl
  have hm2 : umountCount [Event.mountEv img] = 0 := rfl
  have hu1 : mountCount [Event.umountEv] = 0 := rfl
  have hu2 : umountCount [Event.umountEv] = 1 := rfl
  unfold withMount M.bind mountOp toolOp M.tryFinally umountOp
  cases henv : env.toolOk n with
  | false => simp only [Bool.false_eq_true, if_false]; rfl
  | true =>
    simp only [if_true]
    cases henv2 : env.toolOk ((body (n + 1)).ctr) with
    | false =>
      simp only [Bool.false_eq_true, if_false]
      rw [mountCount_append, umountCount_append, mountCount_append, umountCount_append,
        hb (n + 1), hm1, hm2, hu1, hu2]
      omega
    | true =>
      simp only [if_true]
      cases hres : (body (n + 1)).res <;>
        · rw [mountCount_append, umountCount_append, mountCount_append, umountCount_append,
            hb (n + 1), hm1, hm2, hu1, hu2]
          omega

/-- A computation that never writes a file. -/
def NoWrites {α : Type} (m : M α) : Prop := ∀ n, fsWrites ((m n).trace) = []

theorem fsWrites_append (a b : List Event) :
    fsWrites (a ++ b) = fsWrites a ++ fsWrites b := List.filterMap_append _ _ _

theorem noWrites_pure {α : Type} (a : α) : NoWrites (M.pure a) := fun _ => rfl

theorem noWrites_liftE {α : Type} (x : Except Err α) : NoWrites (M.liftE x) := fun _ => rfl

theorem noWrites_bind {α β : Type} {x : M α} {f : α → M β}
    (hx : NoWrites x) (hf : ∀ a, NoWrites (f a)) : NoWrites (M.bind x f) := by
  intro n
  unfold M.bind
  cases hres : (x n).res with
  | error e =>
    simp only [hres]
    exact hx n
  | ok a =>
    simp only [hres]
    rw [fsWrites_append, hx n, hf a (x n).ctr]
    rfl

theorem noWrites_toolOp {env : Env} {tool : String} {ev : List Event}
    (h : fsWrites ev = []) : NoWrites (toolOp env tool ev) := by
  intro n
  unfold toolOp
  cases henv : env.toolOk n <;> simp only [henv, if_true, if_false, Bool.false_eq_true]
  · rfl
  · exact h

theorem artifactWrites_of_fsWrites_nil {t : List Event} (h : fsWrites t = []) :
    artifactWrites t = [] := by
  rw [artifactWrites, h]
  rfl

/-! ### Helper lemmas: write-freedom of the pre-artifact pearl steps -/

theorem noWrites_generate (env : Env) : NoWrites (generate_orb_id env) :=
  noWrites_bind (noWrites_toolOp rfl) fun _ => noWrites_liftE _

theorem noWrites_mongoM (env : Env) (orb_id : String) :
    NoWrites (register_orb_mongoM env orb_id) := by
  intro n
  apply List.filterMap_eq_nil_iff.mpr
  intro e he
  have he' : e ∈ Event.mongoCreate orb_id :: mongoLookupEvents orb_id (env.createResp orb_id) := he
  rcases List.mem_cons.mp he' with h1 | h1
  · rw [h1]
  · unfold mongoLookupEvents at h1
    cases hcr : env.createResp orb_id with
    | success name => rw [hcr] at h1; simp at h1
    | httpErr code body =>
      rw [hcr] at h1
      by_cases h409 : code = 409
      · simp only [h409, if_true] at h1
        rcases List.mem_cons.mp h1 with h2 | h2
        · rw [h2]
        · simp at h2
      · simp [h409] at h1

theorem noWrites_channelM (env : Env) (orb_id : String) :
    NoWrites (set_orb_channelM env orb_id) := fun _ => rfl

theorem noWrites_tokenM (env : Env) (orb_id : String) :
    NoWrites (get_orb_tokenM env orb_id) := fun _ => rfl

theorem noWrites_pearl_prelude (env : Env) (hv : String) :
    NoWrites (pearl_prelude env hv) := by
  apply noWrites_bind (noWrites_generate env)
  intro orb_id
  apply noWrites_bind (noWrites_liftE _)
  intro _
  apply noWrites_bind (noWrites_mongoM env orb_id)
  intro _
  apply noWrites_bind (noWrites_channelM env orb_id)
  intro _
  apply noWrites_bind (noWrites_tokenM env orb_id)
  intro _
  exact noWrites_pure _

/-! ### Helper lemmas: balanced mounts of the image-handling functions -/

theorem balanced_installBaseline (env : Env) (img : String) :
    Balanced (installBaseline env img) := by
  apply balanced_withMount
  refine balanced_bind (balanced_toolOp rfl) fun _ => ?_
  refine balanced_bind (balanced_toolOp rfl) fun _ => ?_
  refine balanced_bind (balanced_toolOp rfl) fun _ => ?_
  refine balanced_bind (balanced_toolOp rfl) fun _ => ?_
  exact balanced_toolOp rfl

theorem balanced_create_persistent_images (env : Env) :
    Balanced (create_persistent_images env) := by
  unfold create_persistent_images
  refine balanced_bind (balanced_toolOp rfl) fun _ => ?_
  refine balanced_bind (balanced_toolOp rfl) fun _ => ?_
  refine balanced_bind (balanced_toolOp rfl) fun _ => ?_
  refine balanced_bind (balanced_toolOp rfl) fun _ => ?_
  refine balanced_bind (balanced_toolOp rfl) fun _ => ?_
  refine balanced_bind (balanced_toolOp rfl) fun _ => ?_
  refine balanced_bind (balanced_installBaseline env _) fun _ => ?_
  exact balanced_installBaseline env _

theorem balanced_personalizeImage (env : Env) (dir img : String) :
    Balanced (personalizeImage env dir img) := by
  apply balanced_withMount
  refine balanced_bind (balanced_toolOp rfl) fun _ => ?_
  refine balanced_bind (balanced_toolOp rfl) fun _ => ?_
  exact balanced_toolOp rfl

theorem balanced_save_orb_artifacts (env : Env) (orb_id orb_name token : String) :
    Balanced (save_orb_artifacts env orb_id orb_name token) := by
  unfold save_orb_artifacts
  refine balanced_bind (balanced_toolOp rfl) fun _ => ?_
  refine balanced_bind (balanced_toolOp rfl) fun _ => ?_
  refine balanced_bind (balanced_toolOp rfl) fun _ => ?_
  refine balanced_bind (balanced_toolOp rfl) fun _ => ?_
  refine balanced_bind (balanced_toolOp rfl) fun _ => ?_
  refine balanced_bind (balanced_toolOp rfl) fun _ => ?_
  refine balanced_bind (balanced_toolOp rfl) fun _ => ?_
  refine balanced_bind (balanced_personalizeImage env _ _) fun _ => ?_
  exact balanced_personalizeImage env _ _

/-! ### Helper lemmas: evaluating one bind step -/

theorem bind_step {α β : Type} (x : M α) (f : α → M β) (n : Nat) :
    M.bind x f n =
      match (x n).res with
      | .error e => ⟨.error e, (x n).ctr, (x n).trace⟩
      | .ok a => ⟨(f a (x n).ctr).res, (f a (x n).ctr).ctr,
          (x n).trace ++ (f a (x n).ctr).trace⟩ := rfl

theorem bind_res_err {α β : Type} {x : M α} {f : α → M β} {n : Nat} {e : Err}
    (h : (x n).res = .error e) :
    M.bind x f n = ⟨.error e, (x n).ctr, (x n).trace⟩ := by
  rw [bind_step, h]

theorem bind_res_ok {α β : Type} {x : M α} {f : α → M β} {n : Nat} {a : α}
    (h : (x n).res = .ok a) :
    M.bind x f n =
      ⟨(f a (x n).ctr).res, (f a (x n).ctr).ctr, (x n).trace ++ (f a (x n).ctr).trace⟩ := by
  rw [bind_step, h]

/-! ### Spec-side definitions

These two definitions follow the words of the specification (not the
source) and are compared against the source-derived functions. -/

/-- Modelled from the spec: "the lowercased string left-padded with zeros
to exactly 8 characters". -/
def leftPadZeros (s : String) (w : Nat) : String :=
  String.mk (List.replicate (w - s.length) '0' ++ s.data)

/-- Whether a string does not begin with an ASCII sign character. -/
def headNotSign (s : String) : Bool :=
  match s.data with
  | [] => true
  | c :: _ => ! (c = '+' || c = '-')

theorem pyZfill_eq_leftPad {s : String} {w : Nat} (h : headNotSign s = true) :
    pyZfill s w = leftPadZeros s w := by
  unfold pyZfill leftPadZeros
  by_cases hw : w ≤ s.length
  · simp only [hw, if_true]
    rw [Nat.sub_eq_zero_of_le hw]
    cases s with
    | mk data => rfl
  · simp only [hw, if_false]
    unfold headNotSign at h
    cases hs : s.data with
    | nil =>
      have h0 : s.length = 0 := by rw [string_length_data, hs]; rfl
      rw [h0, Nat.sub_zero, List.append_nil]
    | cons c rest =>
      rw [hs] at h
      have hc : ¬(c = '+' ∨ c = '-') := by simpa using h
      show (if c = '+' ∨ c = '-' then
            String.mk (c :: (List.replicate (w - s.length) '0' ++ rest))
          else String.mk (List.replicate (w - s.length) '0' ++ (c :: rest))) =
        String.mk (List.replicate (w - s.length) '0' ++ (c :: rest))
      rw [if_neg hc]

/-! ### Concrete environments for witnesses and counterexamples -/

/-- All external calls succeed except the final Core-App registration. -/
def envCoreFails : Env :=
  { toolOk := fun _ => true
    pubkey := "ed25519 AAAA"
    createResp := fun _ => .success (some "HappyOrb")
    lookupResp := fun _ => .success (some "HappyOrb")
    channelResp := fun _ => .success
    tokenResp := fun _ => .success (some "tok123")
    coreResp := fun _ => .httpErr 500 "boom" }

/-- Every subprocess and file operation fails. -/
def envToolsFail : Env :=
  { toolOk := fun _ => false
    pubkey := ""
    createResp := fun _ => .success none
    lookupResp := fun _ => .success none
    channelResp := fun _ => .success
    tokenResp := fun _ => .success none
    coreResp := fun _ => .success none }

/-- Every external call succeeds. -/
def envAllOk : Env :=
  { toolOk := fun _ => true
    pubkey := "ed25519 AAAA"
    createResp := fun _ => .success (some "DiamondOrb")
    lookupResp := fun _ => .success (some "DiamondOrb")
    channelResp := fun _ => .success
    tokenResp := fun _ => .success (some "tok123")
    coreResp := fun _ => .success (some 1) }

/-! ### Claims -/

/-- C1 (counterexample): the claim says a fatal error at any step of
`process_pearl_orb` leaves no partial artifact bundle.  In this run every
step succeeds except the final Core-App registration: the run aborts with
its HTTP 500, yet the per-identity artifact directory already holds the
key material, `orb-name`, `token`, and both image copies. -/
theorem c1_partial_bundle_counterexample :
    (process_pearl_orb envCoreFails "PEARL_EVT1" 0).res = .error (.httpError 500 "boom") ∧
      artifactWrites ((process_pearl_orb envCoreFails "PEARL_EVT1" 0).trace) ≠ [] := by
  constructor
  · decide
  · decide

/-- C1 (amended): a fatal error in any step before artifact persistence —
keypair generation, platform detection, management create/lookup, channel
assignment, or token issuance — aborts the unit with that error and leaves
the artifact directory untouched (no file write under `artifacts/` at
all).  Only a failure during or after `save_orb_artifacts` can leave a
partial bundle. -/
theorem c1_no_artifacts_before_save (env : Env) (hv : String) (n : Nat) (e : Err)
    (h : (pearl_prelude env hv n).res = .error e) :
    (process_pearl_orb env hv n).res = .error e ∧
      artifactWrites ((process_pearl_orb env hv n).trace) = [] := by
  unfold process_pearl_orb
  rw [bind_res_err h]
  exact ⟨rfl, artifactWrites_of_fsWrites_nil (noWrites_pearl_prelude env hv n)⟩

/-- C1 (witness for the amended claim): with every subprocess failing, the
run aborts at `ssh-keygen` and no artifact file is written. -/
theorem c1_no_artifacts_before_save_witness :
    (process_pearl_orb envToolsFail "PEARL_EVT1" 0).res = .error (.toolFailure "ssh-keygen") ∧
      artifactWrites ((process_pearl_orb envToolsFail "PEARL_EVT1" 0).trace) = [] :=
  c1_no_artifacts_before_save envToolsFail "PEARL_EVT1" 0 (.toolFailure "ssh-keygen") (by decide)

/-- C2: `register_orb_mongo` on an HTTP 409 conflict returns exactly the
result of the lookup-by-identity (`fetch_existing_orb_name`); on any other
error status it fails, propagating that status and body. -/
theorem c2_create_conflict_falls_back (orb_id body : String) (code : Nat) (lk : LookupResp) :
    (register_orb_mongo orb_id (.httpErr 409 body) lk = fetch_existing_orb_name orb_id lk) ∧
    (code ≠ 409 →
      register_orb_mongo orb_id (.httpErr code body) lk = .error (.httpError code body)) := by
  constructor
  · show (if (409 : Nat) = 409 then fetch_existing_orb_name orb_id lk
        else Except.error (Err.httpError 409 body)) = fetch_existing_orb_name orb_id lk
    rw [if_pos rfl]
  · intro hc
    show (if code = 409 then fetch_existing_orb_name orb_id lk
        else Except.error (Err.httpError code body)) = Except.error (Err.httpError code body)
    rw [if_neg hc]

/-- C2 (witness): concrete conflict resolving to the existing name, and a
concrete 500 propagating. -/
theorem c2_create_conflict_falls_back_witness :
    (register_orb_mongo "0000002a" (.httpErr 409 "conflict") (.success (some "OldName")) =
      fetch_existing_orb_name "0000002a" (.success (some "OldName"))) ∧
    (register_orb_mongo "0000002a" (.httpErr 500 "boom") (.success (some "OldName")) =
      .error (.httpError 500 "boom")) :=
  ⟨(c2_create_conflict_falls_back "0000002a" "conflict" 500 (.success (some "OldName"))).1,
   (c2_create_conflict_falls_back "0000002a" "boom" 500 (.success (some "OldName"))).2
     (by decide)⟩

/-- C3 (counterexample): the claim says a fatal error on one identity does
not prevent the remaining identities from being processed.  Here the
first id is nine characters, so normalization raises; the run aborts and
the second id is never sent to either backend (no event for it at all). -/
theorem c3_batch_abort_counterexample :
    (process_diamond_orb_ids envAllOk "DIAMOND_EVT2" ["aaaaaaaaa", "bbbbbbbb"] 0).res =
      .error (.valueError "Orb ID aaaaaaaaa exceeds 8 characters") ∧
    Event.mongoCreate "bbbbbbbb" ∉
      (process_diamond_orb_ids envAllOk "DIAMOND_EVT2" ["aaaaaaaaa", "bbbbbbbb"] 0).trace ∧
    Event.coreRegister "bbbbbbbb" "DiamondOrb" ∉
      (process_diamond_orb_ids envAllOk "DIAMOND_EVT2" ["aaaaaaaaa", "bbbbbbbb"] 0).trace := by
  refine ⟨by decide, by decide, by decide⟩

/-- C3 (amended): in batch identity-only mode the loop aborts on the first
fatal error: when processing an identity fails, the whole batch fails with
that error and the trace is exactly the failing identity's trace — the
remaining identities cause no external call. -/
theorem c3_batch_aborts_on_first_failure (env : Env) (orb_id : String) (rest : List String)
    (n : Nat) (e : Err) (h : (process_one_diamond_id env orb_id n).res = .error e) :
    (diamond_ids_loop env (orb_id :: rest) n).res = .error e ∧
    (diamond_ids_loop env (orb_id :: rest) n).trace =
      (process_one_diamond_id env orb_id n).trace := by
  unfold diamond_ids_loop
  rw [bind_res_err h]
  exact ⟨rfl, rfl⟩

/-- C3 (witness for the amended claim). -/
theorem c3_batch_aborts_on_first_failure_witness :
    (diamond_ids_loop envAllOk ["aaaaaaaaa", "bbbbbbbb"] 0).res =
      .error (.valueError "Orb ID aaaaaaaaa exceeds 8 characters") ∧
    (diamond_ids_loop envAllOk ["aaaaaaaaa", "bbbbbbbb"] 0).trace =
      (process_one_diamond_id envAllOk "aaaaaaaaa" 0).trace :=
  c3_batch_aborts_on_first_failure envAllOk "aaaaaaaaa" ["bbbbbbbb"] 0
    (.valueError "Orb ID aaaaaaaaa exceeds 8 characters") (by decide)

/-- C4 (counterexample): the claim says every input of lowered length at
most 8 is returned lowercased and left-padded with zeros.  Python `zfill`
keeps a leading sign character in front of the inserted zeros, so for
`"-abc"` the code returns `"-0000abc"`, not the left-padded `"0000-abc"`. -/
theorem c4_leftpad_counterexample :
    check_orb_id_format "-abc" = .ok "-0000abc" ∧
      "-0000abc" ≠ leftPadZeros (pyLower "-abc") 8 := by
  constructor
  · decide
  · decide

/-- C4 (amended): for every raw string whose lowered form has length at
most 8 and does not begin with an ASCII sign character,
`check_orb_id_format` returns the lowered string left-padded with zeros to
exactly 8 characters (for a leading `+` or `-` the zeros go after the
sign); when the lowered length exceeds 8 it fails with the `ValueError`
and returns nothing. -/
theorem c4_normalize_pads_or_rejects (s : String) :
    ((pyLower s).length ≤ 8 → headNotSign (pyLower s) = true →
      check_orb_id_format s = .ok (leftPadZeros (pyLower s) 8)) ∧
    (8 < (pyLower s).length →
      check_orb_id_format s =
        .error (.valueError ("Orb ID " ++ pyLower s ++ " exceeds 8 characters"))) := by
  constructor
  · intro hlen hhead
    rw [check_orb_id_format_eq, if_neg (Nat.not_lt.mpr hlen), pyZfill_eq_leftPad hhead]
  · intro hlen
    rw [check_orb_id_format_eq, if_pos hlen]

/-- C4 (witness): a mixed-case short id is lowered and left-padded; a
nine-character id is rejected. -/
theorem c4_normalize_pads_or_rejects_witness :
    check_orb_id_format "AbC1" = .ok (leftPadZeros (pyLower "AbC1") 8) ∧
    check_orb_id_format "ABCDEF123" =
      .error (.valueError ("Orb ID " ++ pyLower "ABCDEF123" ++ " exceeds 8 characters")) :=
  ⟨(c4_normalize_pads_or_rejects "AbC1").1 (by decide) (by decide),
   (c4_normalize_pads_or_rejects "ABCDEF123").2 (by decide)⟩

/-- C5 (counterexample): the claim says every accepted identity is
lowercase hexadecimal, but `check_orb_id_format` never validates the
alphabet: `"zzzzzzzz"` is accepted unchanged and is not hex. -/
theorem c5_hex_counterexample :
    check_orb_id_format "zzzzzzzz" = .ok "zzzzzzzz" ∧
      "zzzzzzzz".data.all isLowerHexChar = false := by
  constructor
  · decide
  · decide

/-- C5 (amended): every identity returned by `check_orb_id_format` has
length exactly 8 and contains no uppercase letter (hexness of the alphabet
is not checked); every identity produced by the `generate_orb_id`
derivation has length exactly 8 and is lowercase hexadecimal. -/
theorem c5_identity_shape :
    (∀ s r : String, check_orb_id_format s = .ok r →
      r.length = 8 ∧ ∀ c ∈ r.data, isUpperA c = false) ∧
    (∀ content r : String, derive_orb_id content = .ok r →
      r.length = 8 ∧ ∀ c ∈ r.data, isLowerHexChar c = true) := by
  constructor
  · intro s r h
    exact ⟨(check_ok_shape h).2.2.1, (check_ok_shape h).2.2.2⟩
  · intro content r h
    exact derive_ok_shape h

/-- C5 (witness): the shape facts evaluated on a normalized identity and
on a generated identity. -/
theorem c5_identity_shape_witness :
    ("0000ab12".length = 8 ∧ ∀ c ∈ "0000ab12".data, isUpperA c = false) ∧
    ("63c1dd95".length = 8 ∧ ∀ c ∈ "63c1dd95".data, isLowerHexChar c = true) :=
  ⟨c5_identity_shape.1 "AB12" "0000ab12" (by decide),
   c5_identity_shape.2 "ed25519 AAAA" "63c1dd95" (by decide)⟩

/-- C6: each call of `generate_orb_id` invokes the keypair generator anew
(one keygen effect per call) and returns the pure derivation from the
produced public-key file; that derivation takes the second
whitespace-separated token of the file and returns the first 8 characters
of its SHA-256 hexdigest; and the result depends only on the public-key
token, i.e. it is deterministic given the keypair. -/
theorem c6_identity_from_pubkey_digest :
    (∀ env : Env, ∀ n : Nat, env.toolOk n = true →
      traceOf (generate_orb_id env) n = [Event.keygen] ∧
      (generate_orb_id env n).res = derive_orb_id env.pubkey) ∧
    (∀ content t0 tok rest, pySplitWs (pyStrip content) = t0 :: tok :: rest →
      derive_orb_id content = .ok (String.mk ((sha256Hexdigest tok).take 8))) ∧
    (∀ ca cb t1 tok r1 t2 r2, pySplitWs (pyStrip ca) = t1 :: tok :: r1 →
      pySplitWs (pyStrip cb) = t2 :: tok :: r2 →
      derive_orb_id ca = derive_orb_id cb) := by
  refine ⟨?_, ?_, ?_⟩
  · intro env n h
    constructor
    · unfold traceOf generate_orb_id
      rw [bind_res_ok (show ((toolOp env "ssh-keygen" [Event.keygen]) n).res = .ok () by
        unfold toolOp; rw [h]; rfl)]
      unfold toolOp
      rw [h]
      rfl
    · unfold generate_orb_id
      rw [bind_res_ok (show ((toolOp env "ssh-keygen" [Event.keygen]) n).res = .ok () by
        unfold toolOp; rw [h]; rfl)]
      rfl
  · intro content t0 tok rest h
    unfold derive_orb_id
    rw [h]
  · intro ca cb t1 tok r1 t2 r2 h1 h2
    unfold derive_orb_id
    rw [h1, h2]

/-- C6 (witness): a run with a concrete keypair file emits one keygen and
derives `sha256("AAAA")[:8] = "63c1dd95"`. -/
theorem c6_identity_from_pubkey_digest_witness :
    (traceOf (generate_orb_id envAllOk) 0 = [Event.keygen] ∧
      (generate_orb_id envAllOk 0).res = derive_orb_id envAllOk.pubkey) ∧
    derive_orb_id "ed25519 AAAA" = .ok (String.mk ((sha256Hexdigest "AAAA").take 8)) ∧
    derive_orb_id "ed25519 AAAA" = .ok "63c1dd95" :=
  ⟨c6_identity_from_pubkey_digest.1 envAllOk 0 (by decide),
   c6_identity_from_pubkey_digest.2.1 "ed25519 AAAA" "ed25519" "AAAA" [] (by decide),
   by decide⟩

/-- C7: `register_orb_core_app` succeeds exactly when the HTTP call
succeeds and the payload reports `affected_rows = 1`; a transport-level
success reporting any other affected-row count (including a missing one)
is a `ValueError`, and an HTTP error propagates. -/
theorem c7_registerDevice_needs_one_row (resp : CoreResp) :
    register_orb_core_app resp = .ok () ↔ resp = CoreResp.success (some 1) := by
  constructor
  · intro h
    cases resp with
    | success affected =>
      have h2 : (if affected = some 1 then (Except.ok () : Except Err Unit)
          else Except.error (Err.valueError "Failed to register Orb in Core-App")) =
          Except.ok () := h
      by_cases ha : affected = some 1
      · rw [ha]
      · rw [if_neg ha] at h2
        exact Except.noConfusion h2
    | httpErr code body =>
      exact Except.noConfusion h
  · intro h
    rw [h]
    rfl

/-- C8: in both image-construction paths, every successful mount is
followed by an unmount invocation on every exit path: for every
environment (any install, ACL, or sync step may fail) the run's trace
contains exactly as many unmount invocations as successful mounts. -/
theorem c8_unmount_on_every_exit (env : Env) (orb_id orb_name token : String) :
    Balanced (create_persistent_images env) ∧
      Balanced (save_orb_artifacts env orb_id orb_name token) :=
  ⟨balanced_create_persistent_images env,
   balanced_save_orb_artifacts env orb_id orb_name token⟩

/-- C9: batch identity+name-pair mode never calls the management API (no
create, lookup, channel, or token event in any run), and when the run
succeeds the inventory registrations are exactly one per supplied pair, in
order, using the normalized identity and the caller-supplied name. -/
theorem c9_pairs_inventory_only (env : Env) (pairs : List (String × String)) (n : Nat) :
    mgmtCalls ((process_diamond_orb_pairs env pairs n).trace) = [] ∧
    ((process_diamond_orb_pairs env pairs n).res = .ok () →
      List.Forall₂ (fun (call p : String × String) =>
          check_orb_id_format p.1 = .ok call.1 ∧ call.2 = p.2)
        (coreCalls ((process_diamond_orb_pairs env pairs n).trace)) pairs) := by
  induction pairs generalizing n with
  | nil => exact ⟨rfl, fun _ => List.Forall₂.nil⟩
  | cons hd rest ih =>
    obtain ⟨oid, nm⟩ := hd
    simp only [process_diamond_orb_pairs]
    cases hchk : check_orb_id_format oid with
    | error e =>
      rw [bind_res_err
        (show ((M.liftE (Except.error e) : M String) n).res = .error e from rfl)]
      exact ⟨rfl, fun h => Except.noConfusion h⟩
    | ok o =>
      rw [bind_res_ok
        (show ((M.liftE (Except.ok o) : M String) n).res = .ok o from rfl)]
      cases hcore : register_orb_core_app (env.coreResp o) with
      | error e =>
        rw [bind_res_err
          (show ((register_orb_core_appM env o nm)
            ((M.liftE (Except.ok o) : M String) n).ctr).res = .error e from hcore)]
        exact ⟨rfl, fun h => Except.noConfusion h⟩
      | ok u =>
        rw [bind_res_ok
          (show ((register_orb_core_appM env o nm)
            ((M.liftE (Except.ok o) : M String) n).ctr).res = .ok u from hcore)]
        constructor
        · show mgmtCalls (Event.coreRegister o nm ::
            (process_diamond_orb_pairs env rest n).trace) = []
          show mgmtCalls ((process_diamond_orb_pairs env rest n).trace) = []
          exact (ih n).1
        · intro h
          show List.Forall₂ _ (coreCalls (Event.coreRegister o nm ::
            (process_diamond_orb_pairs env rest n).trace)) ((oid, nm) :: rest)
          show List.Forall₂ _ ((o, nm) ::
            coreCalls ((process_diamond_orb_pairs env rest n).trace)) ((oid, nm) :: rest)
          exact List.Forall₂.cons ⟨hchk, rfl⟩ ((ih n).2 h)

/-- C9 (witness): the spec's example pair registers against inventory with
identity `"0000002a"` and name `"TestOrb"`, with zero management calls. -/
theorem c9_pairs_inventory_only_witness :
    mgmtCalls ((process_diamond_orb_pairs envAllOk [("0000002a", "TestOrb")] 0).trace) = [] ∧
    List.Forall₂ (fun (call p : String × String) =>
        check_orb_id_format p.1 = .ok call.1 ∧ call.2 = p.2)
      (coreCalls ((process_diamond_orb_pairs envAllOk [("0000002a", "TestOrb")] 0).trace))
      [("0000002a", "TestOrb")] :=
  ⟨(c9_pairs_inventory_only envAllOk [("0000002a", "TestOrb")] 0).1,
   (c9_pairs_inventory_only envAllOk [("0000002a", "TestOrb")] 0).2 (by decide)⟩

/-- C10: identity normalization is idempotent — whenever
`check_orb_id_format` accepts `s` with result `t`, running it again on `t`
returns `t` unchanged. -/
theorem c10_normalize_idempotent (s t : String) (h : check_orb_id_format s = .ok t) :
    check_orb_id_format t = .ok t := by
  obtain ⟨-, -, hlen, hnoup⟩ := check_ok_shape h
  rw [check_orb_id_format_eq, pyLower_eq_of_noUpper hnoup, hlen]
  rw [if_neg (by omega)]
  rw [pyZfill_of_le (by rw [hlen])]

/-- C10 (witness): normalizing the normalized `"AB12"` is a no-op. -/
theorem c10_normalize_idempotent_witness :
    check_orb_id_format "0000ab12" = .ok "0000ab12" :=
  c10_normalize_idempotent "AB12" "0000ab12" (by decide)

end OrbReg

/-! ### Concrete evaluations validating the embedding -/

section SanityExamples
open OrbReg
example : check_orb_id_format "AbC1" = .ok "0000abc1" := by decide
example : check_orb_id_format "-abc" = .ok "-0000abc" := by decide
example : check_orb_id_format "zzzzzzzz" = .ok "zzzzzzzz" := by decide
example : check_orb_id_format "abcdef123" =
    .error (.valueError "Orb ID abcdef123 exceeds 8 characters") := by decide
example : check_orb_id_format "12345678" = .ok "12345678" := by decide
example : pySplitWs (pyStrip "ed25519 AAAA  x\n") = ["ed25519", "AAAA", "x"] := by decide
example : detect_platform "PEARL_EVT1" = .ok "pearl" := by decide
example : String.mk (sha256Hexdigest "abc") =
    "ba7816bf8f01cfea414140de5dae2223b00361a396177a9cb410ff61f20015ad" := by decide
example : derive_orb_id "ed25519 AAAA" = .ok "63c1dd95" := by decide
end SanityExamples
